import Mathlib

/-!
# Verification of the `alex` configuration-construction library

Shallow embedding of the Go package `github.com/zeroxsolutions/alex`:
option structs, builders accumulating mutator functions, and constructor
functions that apply the mutators through the generic `builderutil.Build`
and validate the result.

Go conventions mapped to Lean:
* a Go mutator `func(*T) error` becomes `T → Except String T` (in-place
  mutation becomes returning the updated value; a Go `error` is its
  message string);
* a Go `(*T, error)` return becomes `Except String T`;
* the Go `nil` pointer possibility for an options value is `Option T`
  where the source checks for it.
-/

set_option autoImplicit false

namespace Alex

/-- A mutator: the embedding of Go `func(*T) error` closures stored in a
builder's `Opts` slice. -/
abbrev Mutator (α : Type) : Type := α → Except String α

/-- Apply a list of mutators in order, stopping at the first error. -/
def applyAll {α : Type} (o : α) : List (Mutator α) → Except String α
  | [] => Except.ok o
  | f :: fs =>
    match f o with
    | Except.error e => Except.error e
    | Except.ok o2 => applyAll o2 fs

/-- Modelled from the spec: the generic `builderutil.Build` of the external
`github.com/zeroxsolutions/strike/builderutil` package, whose source is not
in this repository. Per the spec it starts from a zero-valued Options
instance, applies every mutator from every supplied lister in order
(outer order preserved, then inner order preserved), stops immediately at
the first mutator that signals an error and propagates that error, and
otherwise returns the fully mutated Options value. -/
def Build {α : Type} (zero : α) (listers : List (List (Mutator α))) : Except String α :=
  applyAll zero listers.flatten

/-! ## Redis (cache) configuration — `redis_config.go`, `redis.go` -/

/-- `RedisConfigOptions` from `redis_config.go`. -/
structure RedisConfigOptions where
  Addr : String
  Password : String
  DB : Int
  deriving Repr, DecidableEq

/-- The Go zero value of `RedisConfigOptions`. -/
def RedisConfigOptions.zero : RedisConfigOptions :=
  { Addr := "", Password := "", DB := 0 }

/-- `RedisConfig` from `redis_config.go`. -/
structure RedisConfig where
  Addr : String
  Password : String
  DB : Int
  deriving Repr, DecidableEq

/-- `RedisConfigOptionsBuilder` from `redis_config.go`. -/
structure RedisConfigOptionsBuilder where
  Opts : List (Mutator RedisConfigOptions)

/-- `(*RedisConfigOptionsBuilder).SetAddr`. -/
def RedisConfigOptionsBuilder.SetAddr (b : RedisConfigOptionsBuilder) (addr : String) :
    RedisConfigOptionsBuilder :=
  { Opts := b.Opts ++ [fun o => Except.ok { o with Addr := addr }] }

/-- `(*RedisConfigOptionsBuilder).SetPassword`. -/
def RedisConfigOptionsBuilder.SetPassword (b : RedisConfigOptionsBuilder) (password : String) :
    RedisConfigOptionsBuilder :=
  { Opts := b.Opts ++ [fun o => Except.ok { o with Password := password }] }

/-- `(*RedisConfigOptionsBuilder).SetDB`. -/
def RedisConfigOptionsBuilder.SetDB (b : RedisConfigOptionsBuilder) (db : Int) :
    RedisConfigOptionsBuilder :=
  { Opts := b.Opts ++ [fun o => Except.ok { o with DB := db }] }

/-- `(*RedisConfigOptionsBuilder).List`. -/
def RedisConfigOptionsBuilder.List (b : RedisConfigOptionsBuilder) :
    List (Mutator RedisConfigOptions) :=
  b.Opts

/-- `NewRedisConfigOptionsBuilder` from `redis_config.go`: a fresh empty builder. -/
def NewRedisConfigOptionsBuilder : RedisConfigOptionsBuilder :=
  { Opts := [] }

/-- The validation tail of `NewRedisConfig` (`redis.go`): the `nil` check,
the address check, the DB range check, then construction of the final
`RedisConfig`. `Option` models the Go `*RedisConfigOptions` pointer that
the source compares against `nil`. -/
def validateRedisOptions : Option RedisConfigOptions → Except String RedisConfig
  | none => Except.error "redis config options is nil"
  | some options =>
    if options.Addr = "" then Except.error "redis address is required"
    else if options.DB < 0 then Except.error "redis database must be greater than 0"
    else Except.ok { Addr := options.Addr, Password := options.Password, DB := options.DB }

/-- `NewRedisConfig` from `redis.go`: build the options from the supplied
listers, propagate a build error unchanged, otherwise validate. -/
def NewRedisConfig (opts : List RedisConfigOptionsBuilder) : Except String RedisConfig :=
  match Build RedisConfigOptions.zero (opts.map RedisConfigOptionsBuilder.List) with
  | Except.error e => Except.error e
  | Except.ok options => validateRedisOptions (some options)

/-! ## Minio (object-storage) configuration — `src/unnamed/part_000`, `src/unnamed/part_001` -/

/-- `MinioOption` from `src/unnamed/part_000`. -/
structure MinioOption where
  Endpoint : String
  AccessKey : String
  SecretKey : String
  UseSSL : Bool
  BucketName : String
  Region : String
  deriving Repr, DecidableEq

/-- The Go zero value of `MinioOption`. -/
def MinioOption.zero : MinioOption :=
  { Endpoint := "", AccessKey := "", SecretKey := "", UseSSL := false,
    BucketName := "", Region := "" }

/-- `MinioConfig` from `src/unnamed/part_000`. -/
structure MinioConfig where
  Endpoint : String
  AccessKey : String
  SecretKey : String
  UseSSL : Bool
  BucketName : String
  Region : String
  deriving Repr, DecidableEq

/-- `MinioOptionBuilder` from `src/unnamed/part_000`. -/
structure MinioOptionBuilder where
  Opts : List (Mutator MinioOption)

/-- `(*MinioOptionBuilder).List`. -/
def MinioOptionBuilder.List (b : MinioOptionBuilder) : List (Mutator MinioOption) :=
  b.Opts

/-- `NewMinioOption`: a fresh empty builder. -/
def NewMinioOption : MinioOptionBuilder :=
  { Opts := [] }

/-- `(*MinioOptionBuilder).SetEndpoint`. -/
def MinioOptionBuilder.SetEndpoint (b : MinioOptionBuilder) (endpoint : String) :
    MinioOptionBuilder :=
  { Opts := b.Opts ++ [fun a => Except.ok { a with Endpoint := endpoint }] }

/-- `(*MinioOptionBuilder).SetAccessKey`. -/
def MinioOptionBuilder.SetAccessKey (b : MinioOptionBuilder) (accessKey : String) :
    MinioOptionBuilder :=
  { Opts := b.Opts ++ [fun a => Except.ok { a with AccessKey := accessKey }] }

/-- `(*MinioOptionBuilder).SetSecretKey`. -/
def MinioOptionBuilder.SetSecretKey (b : MinioOptionBuilder) (secretKey : String) :
    MinioOptionBuilder :=
  { Opts := b.Opts ++ [fun a => Except.ok { a with SecretKey := secretKey }] }

/-- `(*MinioOptionBuilder).SetUseSSL`. -/
def MinioOptionBuilder.SetUseSSL (b : MinioOptionBuilder) (useSSL : Bool) :
    MinioOptionBuilder :=
  { Opts := b.Opts ++ [fun a => Except.ok { a with UseSSL := useSSL }] }

/-- `(*MinioOptionBuilder).SetBucketName`. -/
def MinioOptionBuilder.SetBucketName (b : MinioOptionBuilder) (bucketName : String) :
    MinioOptionBuilder :=
  { Opts := b.Opts ++ [fun a => Except.ok { a with BucketName := bucketName }] }

/-- `(*MinioOptionBuilder).SetRegion`. -/
def MinioOptionBuilder.SetRegion (b : MinioOptionBuilder) (region : String) :
    MinioOptionBuilder :=
  { Opts := b.Opts ++ [fun a => Except.ok { a with Region := region }] }

/-- The validation tail of `NewMinioConfig` (`src/unnamed/part_001`):
endpoint, access key, secret key, bucket name — in that order — then
construction of the final `MinioConfig`. -/
def validateMinioOptions (options : MinioOption) : Except String MinioConfig :=
  if options.Endpoint = "" then Except.error "minio endpoint is required"
  else if options.AccessKey = "" then Except.error "minio access key is required"
  else if options.SecretKey = "" then Except.error "minio secret key is required"
  else if options.BucketName = "" then Except.error "minio bucket name is required"
  else Except.ok { Endpoint := options.Endpoint, AccessKey := options.AccessKey,
                   SecretKey := options.SecretKey, UseSSL := options.UseSSL,
                   BucketName := options.BucketName, Region := options.Region }

/-- `NewMinioConfig` from `src/unnamed/part_001`. -/
def NewMinioConfig (opts : List MinioOptionBuilder) : Except String MinioConfig :=
  match Build MinioOption.zero (opts.map MinioOptionBuilder.List) with
  | Except.error e => Except.error e
  | Except.ok options => validateMinioOptions options

/-! ## File-bucket configuration — `file_bucket_config.go`, `src/unnamed/part_001` -/

/-- `FileBucketOption` from `file_bucket_config.go`. -/
structure FileBucketOption where
  BasePath : String
  deriving Repr, DecidableEq

/-- The Go zero value of `FileBucketOption`. -/
def FileBucketOption.zero : FileBucketOption :=
  { BasePath := "" }

/-- `FileBucketConfig` from `file_bucket_config.go`. -/
structure FileBucketConfig where
  BasePath : String
  deriving Repr, DecidableEq

/-- `FileBucketOptionBuilder` from `file_bucket_config.go`. -/
structure FileBucketOptionBuilder where
  Opts : List (Mutator FileBucketOption)

/-- `(*FileBucketOptionBuilder).SetBasePath`. -/
def FileBucketOptionBuilder.SetBasePath (b : FileBucketOptionBuilder) (basePath : String) :
    FileBucketOptionBuilder :=
  { Opts := b.Opts ++ [fun a => Except.ok { a with BasePath := basePath }] }

/-- `(*FileBucketOptionBuilder).List`. -/
def FileBucketOptionBuilder.List (b : FileBucketOptionBuilder) :
    List (Mutator FileBucketOption) :=
  b.Opts

/-- `NewFileBucketOption`: a fresh empty builder. -/
def NewFileBucketOption : FileBucketOptionBuilder :=
  { Opts := [] }

/-- The validation tail of `NewFileBucketConfig` (`src/unnamed/part_001`). -/
def validateFileBucketOptions (options : FileBucketOption) : Except String FileBucketConfig :=
  if options.BasePath = "" then Except.error "file bucket base path is required"
  else Except.ok { BasePath := options.BasePath }

/-- `NewFileBucketConfig` from `src/unnamed/part_001`. -/
def NewFileBucketConfig (opts : List FileBucketOptionBuilder) : Except String FileBucketConfig :=
  match Build FileBucketOption.zero (opts.map FileBucketOptionBuilder.List) with
  | Except.error e => Except.error e
  | Except.ok options => validateFileBucketOptions options

/-! ## Helper lemmas about `applyAll` and `Build` -/

theorem applyAll_append {α : Type} (l1 l2 : List (Mutator α)) (o : α) :
    applyAll o (l1 ++ l2) =
      match applyAll o l1 with
      | Except.error e => Except.error e
      | Except.ok m => applyAll m l2 := by
  induction l1 generalizing o with
  | nil => rfl
  | cons f fs ih =>
    simp only [List.cons_append, applyAll]
    cases f o with
    | error e => rfl
    | ok o2 => exact ih o2

theorem applyAll_append_ok {α : Type} (l1 l2 : List (Mutator α)) {o0 o2 : α}
    (h : applyAll o0 (l1 ++ l2) = Except.ok o2) :
    ∃ o1, applyAll o0 l1 = Except.ok o1 ∧ applyAll o1 l2 = Except.ok o2 := by
  rw [applyAll_append] at h
  cases hh : applyAll o0 l1 with
  | error e => rw [hh] at h; exact absurd h (by simp)
  | ok o1 => rw [hh] at h; exact ⟨o1, rfl, h⟩

theorem applyAll_singleton {α : Type} (f : Mutator α) (o : α) :
    applyAll o [f] = f o := by
  simp only [applyAll]
  cases f o <;> rfl

theorem Build_singleton {α : Type} (zero : α) (l : List (Mutator α)) :
    Build zero [l] = applyAll zero l := by
  simp [Build]

/-- A mutator that can never signal an error. -/
def mutatorTotal {α : Type} (f : Mutator α) : Prop :=
  ∀ o, ∃ o2, f o = Except.ok o2

/-- Every mutator in the list can never signal an error. -/
def allTotal {α : Type} (l : List (Mutator α)) : Prop :=
  ∀ f ∈ l, mutatorTotal f

theorem allTotal_nil {α : Type} : allTotal ([] : List (Mutator α)) :=
  fun f hf => absurd hf (List.not_mem_nil f)

theorem allTotal_append_ok {α : Type} {l : List (Mutator α)} (hl : allTotal l)
    {f : Mutator α} (hf : mutatorTotal f) : allTotal (l ++ [f]) := by
  intro g hg
  rcases List.mem_append.mp hg with h | h
  · exact hl g h
  · rcases List.mem_singleton.mp h with rfl
    exact hf

theorem applyAll_allTotal_ok {α : Type} {l : List (Mutator α)} (hl : allTotal l) (o : α) :
    ∃ o2, applyAll o l = Except.ok o2 := by
  induction l generalizing o with
  | nil => exact ⟨o, rfl⟩
  | cons f fs ih =>
    obtain ⟨o1, ho1⟩ := hl f (List.mem_cons_self f fs) o
    obtain ⟨o2, ho2⟩ := ih (fun g hg => hl g (List.mem_cons_of_mem f hg)) o1
    exact ⟨o2, by simp only [applyAll, ho1]; exact ho2⟩

/-! ## Elimination lemmas for the validation tails -/

theorem validateRedisOptions_ok_elim {oo : Option RedisConfigOptions} {rc : RedisConfig}
    (h : validateRedisOptions oo = Except.ok rc) :
    ∃ o, oo = some o ∧ o.Addr ≠ "" ∧ 0 ≤ o.DB
      ∧ rc = { Addr := o.Addr, Password := o.Password, DB := o.DB } := by
  cases oo with
  | none => exact absurd h (by simp [validateRedisOptions])
  | some o =>
    refine ⟨o, rfl, ?_⟩
    simp only [validateRedisOptions] at h
    split at h
    · exact absurd h (by simp)
    · split at h
      · exact absurd h (by simp)
      · next h1 h2 =>
        injection h with h3
        exact ⟨h1, Int.not_lt.mp h2, h3.symm⟩

theorem validateRedisOptions_error_elim {oo : Option RedisConfigOptions} {e : String}
    (h : validateRedisOptions oo = Except.error e) :
    e = "redis config options is nil" ∨ e = "redis address is required"
      ∨ e = "redis database must be greater than 0" := by
  cases oo with
  | none =>
    simp only [validateRedisOptions] at h
    injection h with h1
    exact Or.inl h1.symm
  | some o =>
    simp only [validateRedisOptions] at h
    split at h
    · injection h with h1; exact Or.inr (Or.inl h1.symm)
    · split at h
      · injection h with h1; exact Or.inr (Or.inr h1.symm)
      · exact absurd h (by simp)

theorem validateMinioOptions_ok_elim {o : MinioOption} {mc : MinioConfig}
    (h : validateMinioOptions o = Except.ok mc) :
    o.Endpoint ≠ "" ∧ o.AccessKey ≠ "" ∧ o.SecretKey ≠ "" ∧ o.BucketName ≠ ""
      ∧ mc = { Endpoint := o.Endpoint, AccessKey := o.AccessKey, SecretKey := o.SecretKey,
               UseSSL := o.UseSSL, BucketName := o.BucketName, Region := o.Region } := by
  unfold validateMinioOptions at h
  split at h
  · exact absurd h (by simp)
  · split at h
    · exact absurd h (by simp)
    · split at h
      · exact absurd h (by simp)
      · split at h
        · exact absurd h (by simp)
        · next h1 h2 h3 h4 =>
          injection h with h5
          exact ⟨h1, h2, h3, h4, h5.symm⟩

theorem validateMinioOptions_error_elim {o : MinioOption} {e : String}
    (h : validateMinioOptions o = Except.error e) :
    e = "minio endpoint is required" ∨ e = "minio access key is required"
      ∨ e = "minio secret key is required" ∨ e = "minio bucket name is required" := by
  unfold validateMinioOptions at h
  split at h
  · injection h with h1; exact Or.inl h1.symm
  · split at h
    · injection h with h1; exact Or.inr (Or.inl h1.symm)
    · split at h
      · injection h with h1; exact Or.inr (Or.inr (Or.inl h1.symm))
      · split at h
        · injection h with h1; exact Or.inr (Or.inr (Or.inr h1.symm))
        · exact absurd h (by simp)

theorem validateFileBucketOptions_ok_elim {o : FileBucketOption} {fc : FileBucketConfig}
    (h : validateFileBucketOptions o = Except.ok fc) :
    o.BasePath ≠ "" ∧ fc = { BasePath := o.BasePath } := by
  unfold validateFileBucketOptions at h
  split at h
  · exact absurd h (by simp)
  · next h1 =>
    injection h with h2
    exact ⟨h1, h2.symm⟩

theorem validateFileBucketOptions_error_elim {o : FileBucketOption} {e : String}
    (h : validateFileBucketOptions o = Except.error e) :
    e = "file bucket base path is required" := by
  unfold validateFileBucketOptions at h
  split at h
  · injection h with h1; exact h1.symm
  · exact absurd h (by simp)

theorem NewRedisConfig_ok_elim {rbs : List RedisConfigOptionsBuilder} {rc : RedisConfig}
    (h : NewRedisConfig rbs = Except.ok rc) :
    ∃ o, Build RedisConfigOptions.zero (rbs.map RedisConfigOptionsBuilder.List) = Except.ok o
      ∧ validateRedisOptions (some o) = Except.ok rc := by
  unfold NewRedisConfig at h
  split at h
  · exact absurd h (by simp)
  · next o hB => exact ⟨o, hB, h⟩

theorem NewMinioConfig_ok_elim {mbs : List MinioOptionBuilder} {mc : MinioConfig}
    (h : NewMinioConfig mbs = Except.ok mc) :
    ∃ o, Build MinioOption.zero (mbs.map MinioOptionBuilder.List) = Except.ok o
      ∧ validateMinioOptions o = Except.ok mc := by
  unfold NewMinioConfig at h
  split at h
  · exact absurd h (by simp)
  · next o hB => exact ⟨o, hB, h⟩

theorem NewFileBucketConfig_ok_elim {fbs : List FileBucketOptionBuilder} {fc : FileBucketConfig}
    (h : NewFileBucketConfig fbs = Except.ok fc) :
    ∃ o, Build FileBucketOption.zero (fbs.map FileBucketOptionBuilder.List) = Except.ok o
      ∧ validateFileBucketOptions o = Except.ok fc := by
  unfold NewFileBucketConfig at h
  split at h
  · exact absurd h (by simp)
  · next o hB => exact ⟨o, hB, h⟩

/-! ## Claim theorems -/

/-- C4: `NewMinioConfig`, given a builder whose setters supply
endpoint="https://x", accessKey="a", secretKey="b", bucketName="bkt", with
region and SSL never set, succeeds and returns a `MinioConfig` whose
fields equal those inputs exactly, with UseSSL=false and Region="". -/
theorem minio_config_happy_path :
    NewMinioConfig
        [(((NewMinioOption.SetEndpoint "https://x").SetAccessKey "a").SetSecretKey
            "b").SetBucketName "bkt"]
      = Except.ok { Endpoint := "https://x", AccessKey := "a", SecretKey := "b",
                    UseSSL := false, BucketName := "bkt", Region := "" } :=
  rfl

/-- C6: `NewRedisConfig` with addr="localhost:6379", db=0 succeeds; with
db=-1 and a valid addr it fails; with addr="" it fails with the
address-required error even though db is valid; DB=0 is accepted (the
enforced condition is DB ≥ 0) even though the shipped error message text
says "must be greater than 0". -/
theorem redis_config_cases :
    NewRedisConfig [(NewRedisConfigOptionsBuilder.SetAddr "localhost:6379").SetDB 0]
      = Except.ok { Addr := "localhost:6379", Password := "", DB := 0 }
    ∧ NewRedisConfig [(NewRedisConfigOptionsBuilder.SetAddr "localhost:6379").SetDB (-1)]
      = Except.error "redis database must be greater than 0"
    ∧ NewRedisConfig [(NewRedisConfigOptionsBuilder.SetAddr "").SetDB 0]
      = Except.error "redis address is required" :=
  ⟨rfl, rfl, rfl⟩

/-- C7: `NewFileBucketConfig` with BasePath="" fails with the
base-path-required error; with BasePath="/data" it succeeds and the
returned config's BasePath equals "/data". -/
theorem file_bucket_config_cases :
    NewFileBucketConfig [NewFileBucketOption.SetBasePath ""]
      = Except.error "file bucket base path is required"
    ∧ NewFileBucketConfig [NewFileBucketOption.SetBasePath "/data"]
      = Except.ok { BasePath := "/data" } :=
  ⟨rfl, rfl⟩

/-- C1: when some mutator signals an error, Build stops at that mutator,
runs none of the mutators after it (the result does not depend on them),
and returns that exact error; and each per-service constructor propagates
such a Build error unchanged, returning no Config value. -/
theorem build_error_short_circuit {α : Type} (zero : α)
    (l1 l2 : List (Mutator α)) (f : Mutator α) (o : α) (e : String)
    (h1 : applyAll zero l1 = Except.ok o) (h2 : f o = Except.error e)
    (rbs : List RedisConfigOptionsBuilder) (mbs : List MinioOptionBuilder)
    (fbs : List FileBucketOptionBuilder)
    (hr : Build RedisConfigOptions.zero (rbs.map RedisConfigOptionsBuilder.List)
            = Except.error e)
    (hm : Build MinioOption.zero (mbs.map MinioOptionBuilder.List) = Except.error e)
    (hf : Build FileBucketOption.zero (fbs.map FileBucketOptionBuilder.List)
            = Except.error e) :
    Build zero [l1 ++ f :: l2] = Except.error e
    ∧ NewRedisConfig rbs = Except.error e
    ∧ NewMinioConfig mbs = Except.error e
    ∧ NewFileBucketConfig fbs = Except.error e := by
  refine ⟨?_, ?_, ?_, ?_⟩
  · rw [Build_singleton, applyAll_append, h1]
    show applyAll o (f :: l2) = Except.error e
    simp only [applyAll, h2]
  · unfold NewRedisConfig
    rw [hr]
  · unfold NewMinioConfig
    rw [hm]
  · unfold NewFileBucketConfig
    rw [hf]

theorem build_error_short_circuit_witness :
    Build RedisConfigOptions.zero
        [([] : List (Mutator RedisConfigOptions))
          ++ (fun _ => Except.error "boom") :: [fun o => Except.ok { o with Addr := "x" }]]
      = Except.error "boom"
    ∧ NewRedisConfig [{ Opts := [fun _ => Except.error "boom"] }] = Except.error "boom"
    ∧ NewMinioConfig [{ Opts := [fun _ => Except.error "boom"] }] = Except.error "boom"
    ∧ NewFileBucketConfig [{ Opts := [fun _ => Except.error "boom"] }]
      = Except.error "boom" :=
  build_error_short_circuit RedisConfigOptions.zero []
    [fun o => Except.ok { o with Addr := "x" }] (fun _ => Except.error "boom")
    RedisConfigOptions.zero "boom" rfl rfl
    [{ Opts := [fun _ => Except.error "boom"] }]
    [{ Opts := [fun _ => Except.error "boom"] }]
    [{ Opts := [fun _ => Except.error "boom"] }] rfl rfl rfl

/-- C2: each setter appends exactly one mutator that assigns only its own
field, mutators are applied in append order, and when more than one setter
call touches the same field the field's final value after Build equals the
value passed to the last such call, regardless of earlier calls (shown for
`SetAddr` on the Redis builder and `SetEndpoint` on the Minio builder, for
an arbitrary earlier builder state). -/
theorem setter_last_write_wins
    (b : RedisConfigOptionsBuilder) (a1 a2 : String) (o : RedisConfigOptions)
    (mb : MinioOptionBuilder) (e1 e2 : String) (m : MinioOption)
    (ho : Build RedisConfigOptions.zero [((b.SetAddr a1).SetAddr a2).List] = Except.ok o)
    (hm : Build MinioOption.zero [((mb.SetEndpoint e1).SetEndpoint e2).List] = Except.ok m) :
    ((b.SetAddr a1).SetAddr a2).Opts
      = b.Opts ++ [fun x => Except.ok { x with Addr := a1 }]
          ++ [fun x => Except.ok { x with Addr := a2 }]
    ∧ o.Addr = a2 ∧ m.Endpoint = e2 := by
  refine ⟨rfl, ?_, ?_⟩
  · rw [Build_singleton] at ho
    obtain ⟨o1, -, h2⟩ :=
      applyAll_append_ok ((b.SetAddr a1).Opts)
        [fun x => Except.ok { x with Addr := a2 }] ho
    rw [applyAll_singleton] at h2
    injection h2 with h3
    rw [← h3]
  · rw [Build_singleton] at hm
    obtain ⟨m1, -, h2⟩ :=
      applyAll_append_ok ((mb.SetEndpoint e1).Opts)
        [fun x => Except.ok { x with Endpoint := e2 }] hm
    rw [applyAll_singleton] at h2
    injection h2 with h3
    rw [← h3]

theorem setter_last_write_wins_witness :
    ((NewRedisConfigOptionsBuilder.SetAddr "u").SetAddr "v").Opts
      = NewRedisConfigOptionsBuilder.Opts
          ++ [fun x => Except.ok { x with Addr := "u" }]
          ++ [fun x => Except.ok { x with Addr := "v" }]
    ∧ ({ Addr := "v", Password := "", DB := 0 } : RedisConfigOptions).Addr = "v"
    ∧ ({ Endpoint := "q", AccessKey := "", SecretKey := "", UseSSL := false,
         BucketName := "", Region := "" } : MinioOption).Endpoint = "q" :=
  setter_last_write_wins NewRedisConfigOptionsBuilder "u" "v"
    { Addr := "v", Password := "", DB := 0 }
    NewMinioOption "p" "q"
    { Endpoint := "q", AccessKey := "", SecretKey := "", UseSSL := false,
      BucketName := "", Region := "" }
    rfl rfl

/-- C3: every Config value returned by a constructor has its required
fields non-empty and its range-checked fields in range: a returned
`RedisConfig` has nonempty Addr and DB ≥ 0, a returned `MinioConfig` has
nonempty Endpoint, AccessKey, SecretKey and BucketName, and a returned
`FileBucketConfig` has nonempty BasePath. -/
theorem config_field_invariants
    (rbs : List RedisConfigOptionsBuilder) (mbs : List MinioOptionBuilder)
    (fbs : List FileBucketOptionBuilder)
    (rc : RedisConfig) (mc : MinioConfig) (fc : FileBucketConfig)
    (hr : NewRedisConfig rbs = Except.ok rc)
    (hm : NewMinioConfig mbs = Except.ok mc)
    (hf : NewFileBucketConfig fbs = Except.ok fc) :
    rc.Addr ≠ "" ∧ 0 ≤ rc.DB
    ∧ mc.Endpoint ≠ "" ∧ mc.AccessKey ≠ "" ∧ mc.SecretKey ≠ "" ∧ mc.BucketName ≠ ""
    ∧ fc.BasePath ≠ "" := by
  obtain ⟨o, -, hv⟩ := NewRedisConfig_ok_elim hr
  obtain ⟨o2, ho2, ha, hdb, hrc⟩ := validateRedisOptions_ok_elim hv
  injection ho2 with ho3
  obtain ⟨mo, -, hmv⟩ := NewMinioConfig_ok_elim hm
  obtain ⟨hep, hak, hsk, hbn, hmc⟩ := validateMinioOptions_ok_elim hmv
  obtain ⟨fo, -, hfv⟩ := NewFileBucketConfig_ok_elim hf
  obtain ⟨hbp, hfc⟩ := validateFileBucketOptions_ok_elim hfv
  subst hrc hmc hfc
  exact ⟨ha, hdb, hep, hak, hsk, hbn, hbp⟩

theorem config_field_invariants_witness :
    ({ Addr := "localhost:6379", Password := "", DB := 0 } : RedisConfig).Addr ≠ ""
    ∧ 0 ≤ ({ Addr := "localhost:6379", Password := "", DB := 0 } : RedisConfig).DB
    ∧ ({ Endpoint := "https://x", AccessKey := "a", SecretKey := "b", UseSSL := false,
         BucketName := "bkt", Region := "" } : MinioConfig).Endpoint ≠ ""
    ∧ ({ Endpoint := "https://x", AccessKey := "a", SecretKey := "b", UseSSL := false,
         BucketName := "bkt", Region := "" } : MinioConfig).AccessKey ≠ ""
    ∧ ({ Endpoint := "https://x", AccessKey := "a", SecretKey := "b", UseSSL := false,
         BucketName := "bkt", Region := "" } : MinioConfig).SecretKey ≠ ""
    ∧ ({ Endpoint := "https://x", AccessKey := "a", SecretKey := "b", UseSSL := false,
         BucketName := "bkt", Region := "" } : MinioConfig).BucketName ≠ ""
    ∧ ({ BasePath := "/data" } : FileBucketConfig).BasePath ≠ "" :=
  config_field_invariants
    [(NewRedisConfigOptionsBuilder.SetAddr "localhost:6379").SetDB 0]
    [(((NewMinioOption.SetEndpoint "https://x").SetAccessKey "a").SetSecretKey
        "b").SetBucketName "bkt"]
    [NewFileBucketOption.SetBasePath "/data"]
    { Addr := "localhost:6379", Password := "", DB := 0 }
    { Endpoint := "https://x", AccessKey := "a", SecretKey := "b", UseSSL := false,
      BucketName := "bkt", Region := "" }
    { BasePath := "/data" }
    rfl rfl rfl

/-- C5: whenever the built options of `NewMinioConfig` have an empty
AccessKey while the other required fields are valid (non-empty endpoint,
secret key and bucket name), `NewMinioConfig` fails with the
access-key-required error. -/
theorem minio_missing_access_key
    (mbs : List MinioOptionBuilder) (o : MinioOption)
    (hb : Build MinioOption.zero (mbs.map MinioOptionBuilder.List) = Except.ok o)
    (hak : o.AccessKey = "") (hep : o.Endpoint ≠ "")
    (hsk : o.SecretKey ≠ "") (hbn : o.BucketName ≠ "") :
    NewMinioConfig mbs = Except.error "minio access key is required" := by
  unfold NewMinioConfig
  rw [hb]
  show validateMinioOptions o = Except.error "minio access key is required"
  unfold validateMinioOptions
  rw [if_neg hep, if_pos hak]

theorem minio_missing_access_key_witness :
    NewMinioConfig
        [((NewMinioOption.SetEndpoint "https://x").SetSecretKey "b").SetBucketName "bkt"]
      = Except.error "minio access key is required" :=
  minio_missing_access_key
    [((NewMinioOption.SetEndpoint "https://x").SetSecretKey "b").SetBucketName "bkt"]
    { Endpoint := "https://x", AccessKey := "", SecretKey := "b", UseSSL := false,
      BucketName := "bkt", Region := "" }
    rfl rfl (by decide) (by decide) (by decide)

/-- C8: when a built options value violates more than one validation rule,
the error returned is the one for the first violated rule in the
constructor's fixed checklist order (Minio: endpoint, then access key,
then secret key, then bucket name; Redis: nil check, then address, then DB
range; FileBucket: base path): each rule's error is produced exactly when
its condition fails and every earlier rule's condition holds, whatever the
later fields are. -/
theorem first_violated_rule_wins
    (mo : MinioOption) (ro : RedisConfigOptions) (fo : FileBucketOption) :
    (mo.Endpoint = "" →
      validateMinioOptions mo = Except.error "minio endpoint is required")
    ∧ (mo.Endpoint ≠ "" → mo.AccessKey = "" →
      validateMinioOptions mo = Except.error "minio access key is required")
    ∧ (mo.Endpoint ≠ "" → mo.AccessKey ≠ "" → mo.SecretKey = "" →
      validateMinioOptions mo = Except.error "minio secret key is required")
    ∧ (mo.Endpoint ≠ "" → mo.AccessKey ≠ "" → mo.SecretKey ≠ "" → mo.BucketName = "" →
      validateMinioOptions mo = Except.error "minio bucket name is required")
    ∧ validateRedisOptions none = Except.error "redis config options is nil"
    ∧ (ro.Addr = "" →
      validateRedisOptions (some ro) = Except.error "redis address is required")
    ∧ (ro.Addr ≠ "" → ro.DB < 0 →
      validateRedisOptions (some ro)
        = Except.error "redis database must be greater than 0")
    ∧ (fo.BasePath = "" →
      validateFileBucketOptions fo
        = Except.error "file bucket base path is required") := by
  refine ⟨?_, ?_, ?_, ?_, rfl, ?_, ?_, ?_⟩
  · intro h1
    unfold validateMinioOptions
    rw [if_pos h1]
  · intro h1 h2
    unfold validateMinioOptions
    rw [if_neg h1, if_pos h2]
  · intro h1 h2 h3
    unfold validateMinioOptions
    rw [if_neg h1, if_neg h2, if_pos h3]
  · intro h1 h2 h3 h4
    unfold validateMinioOptions
    rw [if_neg h1, if_neg h2, if_neg h3, if_pos h4]
  · intro h1
    simp only [validateRedisOptions]
    rw [if_pos h1]
  · intro h1 h2
    simp only [validateRedisOptions]
    rw [if_neg h1, if_pos h2]
  · intro h1
    unfold validateFileBucketOptions
    rw [if_pos h1]

theorem first_violated_rule_wins_witness :
    validateMinioOptions
        { Endpoint := "", AccessKey := "", SecretKey := "", UseSSL := false,
          BucketName := "", Region := "" }
      = Except.error "minio endpoint is required"
    ∧ validateMinioOptions
        { Endpoint := "e", AccessKey := "", SecretKey := "", UseSSL := false,
          BucketName := "", Region := "" }
      = Except.error "minio access key is required"
    ∧ validateRedisOptions (some { Addr := "", Password := "", DB := -1 })
      = Except.error "redis address is required"
    ∧ validateRedisOptions (some { Addr := "a", Password := "", DB := -1 })
      = Except.error "redis database must be greater than 0"
    ∧ validateFileBucketOptions { BasePath := "" }
      = Except.error "file bucket base path is required" :=
  ⟨(first_violated_rule_wins
      { Endpoint := "", AccessKey := "", SecretKey := "", UseSSL := false,
        BucketName := "", Region := "" }
      { Addr := "", Password := "", DB := -1 } { BasePath := "" }).1 rfl,
   (first_violated_rule_wins
      { Endpoint := "e", AccessKey := "", SecretKey := "", UseSSL := false,
        BucketName := "", Region := "" }
      { Addr := "", Password := "", DB := -1 } { BasePath := "" }).2.1 (by decide) rfl,
   (first_violated_rule_wins
      { Endpoint := "", AccessKey := "", SecretKey := "", UseSSL := false,
        BucketName := "", Region := "" }
      { Addr := "", Password := "", DB := -1 } { BasePath := "" }).2.2.2.2.2.1 rfl,
   (first_violated_rule_wins
      { Endpoint := "", AccessKey := "", SecretKey := "", UseSSL := false,
        BucketName := "", Region := "" }
      { Addr := "a", Password := "", DB := -1 } { BasePath := "" }).2.2.2.2.2.2.1
     (by decide) (by decide),
   (first_violated_rule_wins
      { Endpoint := "", AccessKey := "", SecretKey := "", UseSSL := false,
        BucketName := "", Region := "" }
      { Addr := "", Password := "", DB := -1 } { BasePath := "" }).2.2.2.2.2.2.2 rfl⟩

/-- C9: each constructor returns exactly one of a Config value or an
error, never both; on success the returned Config carries exactly the
validated fields of the built options value. -/
theorem error_or_value_exclusivity
    (rbs : List RedisConfigOptionsBuilder) (mbs : List MinioOptionBuilder)
    (fbs : List FileBucketOptionBuilder)
    (rc : RedisConfig) (mc : MinioConfig) (fc : FileBucketConfig) (e : String) :
    ¬(NewRedisConfig rbs = Except.ok rc ∧ NewRedisConfig rbs = Except.error e)
    ∧ ¬(NewMinioConfig mbs = Except.ok mc ∧ NewMinioConfig mbs = Except.error e)
    ∧ ¬(NewFileBucketConfig fbs = Except.ok fc ∧ NewFileBucketConfig fbs = Except.error e)
    ∧ (NewRedisConfig rbs = Except.ok rc →
        ∃ o, Build RedisConfigOptions.zero (rbs.map RedisConfigOptionsBuilder.List)
              = Except.ok o
          ∧ rc = { Addr := o.Addr, Password := o.Password, DB := o.DB })
    ∧ (NewMinioConfig mbs = Except.ok mc →
        ∃ o, Build MinioOption.zero (mbs.map MinioOptionBuilder.List) = Except.ok o
          ∧ mc = { Endpoint := o.Endpoint, AccessKey := o.AccessKey,
                   SecretKey := o.SecretKey, UseSSL := o.UseSSL,
                   BucketName := o.BucketName, Region := o.Region })
    ∧ (NewFileBucketConfig fbs = Except.ok fc →
        ∃ o, Build FileBucketOption.zero (fbs.map FileBucketOptionBuilder.List)
              = Except.ok o
          ∧ fc = { BasePath := o.BasePath }) := by
  refine ⟨?_, ?_, ?_, ?_, ?_, ?_⟩
  · rintro ⟨h1, h2⟩
    rw [h1] at h2
    exact absurd h2 (by simp)
  · rintro ⟨h1, h2⟩
    rw [h1] at h2
    exact absurd h2 (by simp)
  · rintro ⟨h1, h2⟩
    rw [h1] at h2
    exact absurd h2 (by simp)
  · intro h
    obtain ⟨o, hB, hv⟩ := NewRedisConfig_ok_elim h
    obtain ⟨o2, ho2, -, -, hrc⟩ := validateRedisOptions_ok_elim hv
    injection ho2 with ho3
    exact ⟨o, hB, ho3 ▸ hrc⟩
  · intro h
    obtain ⟨o, hB, hv⟩ := NewMinioConfig_ok_elim h
    obtain ⟨-, -, -, -, hmc⟩ := validateMinioOptions_ok_elim hv
    exact ⟨o, hB, hmc⟩
  · intro h
    obtain ⟨o, hB, hv⟩ := NewFileBucketConfig_ok_elim h
    obtain ⟨-, hfc⟩ := validateFileBucketOptions_ok_elim hv
    exact ⟨o, hB, hfc⟩

theorem error_or_value_exclusivity_witness :
    ∃ o, Build RedisConfigOptions.zero
            ([(NewRedisConfigOptionsBuilder.SetAddr "a").SetDB 2].map
              RedisConfigOptionsBuilder.List)
          = Except.ok o
      ∧ ({ Addr := "a", Password := "", DB := 2 } : RedisConfig)
          = { Addr := o.Addr, Password := o.Password, DB := o.DB } :=
  (error_or_value_exclusivity
    [(NewRedisConfigOptionsBuilder.SetAddr "a").SetDB 2] [] []
    { Addr := "a", Password := "", DB := 2 }
    { Endpoint := "", AccessKey := "", SecretKey := "", UseSSL := false,
      BucketName := "", Region := "" }
    { BasePath := "" } "e").2.2.2.1 rfl

theorem Build_allTotal_ok {α : Type} (zero : α) {ls : List (List (Mutator α))}
    (h : ∀ l ∈ ls, allTotal l) : ∃ o, Build zero ls = Except.ok o := by
  apply applyAll_allTotal_ok
  intro f hf
  rw [List.mem_flatten] at hf
  obtain ⟨l, hl, hfl⟩ := hf
  exact h l hl f hfl

/-- C10: every mutator appended by any concrete setter of this repository
unconditionally returns no error (setters preserve mutator totality, and
the fresh builders are total), so over builders produced only by these
setters a constructor failure can only be one of its validation errors —
the mutator-error branch is unreachable. -/
theorem setter_mutators_never_fail
    (b : RedisConfigOptionsBuilder) (mb : MinioOptionBuilder)
    (fb : FileBucketOptionBuilder)
    (addr password : String) (db : Int)
    (endpoint accessKey secretKey bucketName region basePath : String) (useSSL : Bool)
    (hb : allTotal b.Opts) (hmb : allTotal mb.Opts) (hfb : allTotal fb.Opts)
    (rbs : List RedisConfigOptionsBuilder) (mbs : List MinioOptionBuilder)
    (fbs : List FileBucketOptionBuilder)
    (hrbs : ∀ x ∈ rbs, allTotal x.Opts) (hmbs : ∀ x ∈ mbs, allTotal x.Opts)
    (hfbs : ∀ x ∈ fbs, allTotal x.Opts) :
    allTotal NewRedisConfigOptionsBuilder.Opts
    ∧ allTotal NewMinioOption.Opts
    ∧ allTotal NewFileBucketOption.Opts
    ∧ allTotal (b.SetAddr addr).Opts
    ∧ allTotal (b.SetPassword password).Opts
    ∧ allTotal (b.SetDB db).Opts
    ∧ allTotal (mb.SetEndpoint endpoint).Opts
    ∧ allTotal (mb.SetAccessKey accessKey).Opts
    ∧ allTotal (mb.SetSecretKey secretKey).Opts
    ∧ allTotal (mb.SetUseSSL useSSL).Opts
    ∧ allTotal (mb.SetBucketName bucketName).Opts
    ∧ allTotal (mb.SetRegion region).Opts
    ∧ allTotal (fb.SetBasePath basePath).Opts
    ∧ (∀ e, NewRedisConfig rbs = Except.error e →
        e = "redis config options is nil" ∨ e = "redis address is required"
          ∨ e = "redis database must be greater than 0")
    ∧ (∀ e, NewMinioConfig mbs = Except.error e →
        e = "minio endpoint is required" ∨ e = "minio access key is required"
          ∨ e = "minio secret key is required" ∨ e = "minio bucket name is required")
    ∧ (∀ e, NewFileBucketConfig fbs = Except.error e →
        e = "file bucket base path is required") := by
  have hBr : ∃ o, Build RedisConfigOptions.zero
      (rbs.map RedisConfigOptionsBuilder.List) = Except.ok o := by
    refine Build_allTotal_ok _ ?_
    intro l hl
    rw [List.mem_map] at hl
    obtain ⟨x, hx, rfl⟩ := hl
    exact hrbs x hx
  have hBm : ∃ o, Build MinioOption.zero
      (mbs.map MinioOptionBuilder.List) = Except.ok o := by
    refine Build_allTotal_ok _ ?_
    intro l hl
    rw [List.mem_map] at hl
    obtain ⟨x, hx, rfl⟩ := hl
    exact hmbs x hx
  have hBf : ∃ o, Build FileBucketOption.zero
      (fbs.map FileBucketOptionBuilder.List) = Except.ok o := by
    refine Build_allTotal_ok _ ?_
    intro l hl
    rw [List.mem_map] at hl
    obtain ⟨x, hx, rfl⟩ := hl
    exact hfbs x hx
  refine ⟨allTotal_nil, allTotal_nil, allTotal_nil,
    allTotal_append_ok hb (fun o => ⟨_, rfl⟩),
    allTotal_append_ok hb (fun o => ⟨_, rfl⟩),
    allTotal_append_ok hb (fun o => ⟨_, rfl⟩),
    allTotal_append_ok hmb (fun o => ⟨_, rfl⟩),
    allTotal_append_ok hmb (fun o => ⟨_, rfl⟩),
    allTotal_append_ok hmb (fun o => ⟨_, rfl⟩),
    allTotal_append_ok hmb (fun o => ⟨_, rfl⟩),
    allTotal_append_ok hmb (fun o => ⟨_, rfl⟩),
    allTotal_append_ok hmb (fun o => ⟨_, rfl⟩),
    allTotal_append_ok hfb (fun o => ⟨_, rfl⟩),
    ?_, ?_, ?_⟩
  · intro e he
    obtain ⟨o, hB⟩ := hBr
    unfold NewRedisConfig at he
    rw [hB] at he
    exact validateRedisOptions_error_elim he
  · intro e he
    obtain ⟨o, hB⟩ := hBm
    unfold NewMinioConfig at he
    rw [hB] at he
    exact validateMinioOptions_error_elim he
  · intro e he
    obtain ⟨o, hB⟩ := hBf
    unfold NewFileBucketConfig at he
    rw [hB] at he
    exact validateFileBucketOptions_error_elim he

theorem setter_mutators_never_fail_witness :
    allTotal (NewRedisConfigOptionsBuilder.SetAddr "a").Opts
    ∧ allTotal (NewMinioOption.SetEndpoint "e").Opts
    ∧ allTotal (NewFileBucketOption.SetBasePath "/p").Opts :=
  have h := setter_mutators_never_fail
    NewRedisConfigOptionsBuilder NewMinioOption NewFileBucketOption
    "a" "pw" 0 "e" "ak" "sk" "bn" "rg" "/p" false
    allTotal_nil allTotal_nil allTotal_nil [] [] []
    (fun x hx => absurd hx (List.not_mem_nil x))
    (fun x hx => absurd hx (List.not_mem_nil x))
    (fun x hx => absurd hx (List.not_mem_nil x))
  ⟨h.2.2.2.1, h.2.2.2.2.2.2.1, h.2.2.2.2.2.2.2.2.2.2.2.2.1⟩

end Alex
